import Mathlib

/-!
Verification development for the worker17 real-time worker-state
synchronization and command-routing layer (src/server/src/routes/socket.ts).

The repository ships two variants of the socket route module in the same
file.  The first variant (lines 1-245 of routes/socket.ts) correlates
status queries with worker replies through ad-hoc socket listeners and a
promise; it keeps no state store.  The second variant (lines 245-369)
keeps a workerStates map fed by stateUpdate messages and marks workers
offline in the close handler.  We embed both, in namespaces V1 and V2.

Modelling conventions:
- JavaScript Map objects become functions String to Option _ (Map.set is a
  pointwise update, Map.get a lookup, Map.delete sets none).
- A live connection is a natural number id; readyState OPEN is a Boolean
  map openConns.  Timestamps (Date.now) are Nat parameters.
- Optional JSON fields are Option values; JavaScript truthiness of a
  string field ("" and undefined are falsy) is made explicit.
- Promise resolution: a promise may receive several resolve calls; only
  the first determines its value (JavaScript semantics).  We record the
  full list of resolve calls, so the first-wins rule is a separate,
  provable step rather than a baked-in assumption.
- The five-second response window of a status query is modelled by the
  trace of messages the target worker emits inside that window; messages
  after the window are irrelevant because the listener is removed by the
  timeout callback.  Wire-envelope timestamps are elided; the stored
  record timestamp (which the claims mention) is kept.
-/

/-- Status enumeration of a worker, from the WorkerState interface. -/
inductive Status where
  | idle
  | working
  | error
  | offline
deriving DecidableEq, Repr

/-- Three-dimensional vector, from the shared Vector3 interface (renamed
Vec3 here because Mathlib already declares Vector3). -/
structure Vec3 where
  x : Int
  y : Int
  z : Int
deriving DecidableEq, Repr

/-- Worker state record as it travels on the wire and sits in the store.
All fields are optional because a stateUpdate payload is an arbitrary
JSON object spread into the stored record; the server itself only ever
forces the timestamp field.  The shared type declares id, active, status,
position, rotation, batteryLevel, currentTask, timestamp. -/
structure WorkerState where
  id : Option String
  active : Option Bool
  status : Option Status
  position : Option Vec3
  rotation : Option Vec3
  batteryLevel : Option Int
  currentTask : Option String
  timestamp : Option Nat
deriving DecidableEq, Repr

/-- Outbound wire envelope (timestamps elided, see module comment). -/
inductive Envelope where
  | ack
  | error (message : String)
  | command (workerId : String) (command : String)
  | statusRequestMsg (workerId : Option String) (requestId : String)
  | statusResponseMsg (requestId : String) (payload : WorkerState)
deriving DecidableEq, Repr

/-- The synthetic offline payload the server fabricates when a worker is
not connected or a status query times out:
braces id, active: false, status: "offline", timestamp braces. -/
def syntheticOffline (workerId : Option String) (now : Nat) : WorkerState :=
  { id := workerId, active := some false, status := some Status.offline,
    position := none, rotation := none, batteryLevel := none,
    currentTask := none, timestamp := some now }

/-- JavaScript truthiness of an optional string field: undefined and the
empty string are falsy. -/
def truthy : Option String → Bool
  | none => false
  | some s => s ≠ ""

/-- JavaScript a or-else b on string fields, as in
data.payload?.targetWorkerId or-else data.workerId. -/
def jsOrStr : Option String → Option String → Option String
  | some s, b => if s = "" then b else some s
  | none, b => b

/-- Helper addWorkerConnection: workerConnections.set(workerId, ws).
Identical in both variants of the module. -/
def addWorkerConnection (conns : String → Option Nat) (workerId : String)
    (c : Nat) : String → Option Nat :=
  fun k => if k = workerId then some c else conns k

/-- terminateWorker: looks up the connection for workerId; if absent or
not OPEN, logs and returns false sending nothing; otherwise sends the
terminate command envelope and returns true.  Identical in both variants.
Returns the success Boolean together with the list of (target connection,
envelope) sends it performs. -/
def terminateWorker (conns : String → Option Nat) (openConns : Nat → Bool)
    (workerId : String) : Bool × List (Nat × Envelope) :=
  match conns workerId with
  | none => (false, [])
  | some c =>
      if openConns c then
        (true, [(c, Envelope.command workerId "terminate")])
      else
        (false, [])

namespace V2

/-- Server state of the second variant of routes/socket.ts: the
workerStates store, the workerConnections map, each connection handler
closure variable workerId, and which connections are OPEN. -/
structure ServerState where
  workerStates : String → Option WorkerState
  workerConnections : String → Option Nat
  connWorkerId : Nat → Option String
  openConns : Nat → Bool

/-- Inbound message as seen by the second variant message handler after
JSON parsing: malformed stands for input on which JSON.parse (or field
access) throws; unknownKind is a parsed envelope whose type matches no
switch case. -/
inductive InMsg where
  | malformed
  | connect (workerId : Option String)
  | stateUpdate (workerId : Option String) (payload : Option WorkerState)
  | unknownKind
deriving DecidableEq, Repr

/-- Message handler of the second variant (routes/socket.ts lines
309-346).  The connect case assigns the closure variable workerId
unconditionally and registers the connection only when the id is truthy.
The stateUpdate case, guarded by truthiness of data.workerId and
data.payload, stores the spread of the payload with a fresh timestamp:
workerStates.set(id, braces ...data.payload, timestamp: Date.now()
braces) — a full replacement of any previous record.  Every parsed
message is acknowledged; a thrown error is answered with the error
envelope. -/
def handleMessage (s : ServerState) (c : Nat) (m : InMsg) (now : Nat) :
    ServerState × List (Nat × Envelope) :=
  match m with
  | InMsg.malformed => (s, [(c, Envelope.error "Failed to process message")])
  | InMsg.connect wid =>
      let s1 : ServerState :=
        { s with connWorkerId := fun k => if k = c then wid else s.connWorkerId k }
      match wid with
      | some w =>
          if w = "" then (s1, [(c, Envelope.ack)])
          else
            ({ s1 with workerConnections := addWorkerConnection s1.workerConnections w c },
             [(c, Envelope.ack)])
      | none => (s1, [(c, Envelope.ack)])
  | InMsg.stateUpdate wid p =>
      match wid, p with
      | some w, some payload =>
          if w = "" then (s, [(c, Envelope.ack)])
          else
            ({ s with workerStates := fun k =>
                 if k = w then some { payload with timestamp := some now }
                 else s.workerStates k },
             [(c, Envelope.ack)])
      | _, _ => (s, [(c, Envelope.ack)])
  | InMsg.unknownKind => (s, [(c, Envelope.ack)])

/-- Close handler of the second variant (routes/socket.ts lines 349-364).
If the closure variable workerId is truthy: mutate the stored record (if
any) to active=false, status=offline with a fresh timestamp, and delete
the workerConnections entry.  The underlying socket is closed.  The
handler performs no sends; the returned list of (connection, envelope)
sends is accordingly empty. -/
def handleClose (s : ServerState) (c : Nat) (now : Nat) :
    ServerState × List (Nat × Envelope) :=
  let closed : Nat → Bool := fun k => if k = c then false else s.openConns k
  match s.connWorkerId c with
  | none => ({ s with openConns := closed }, [])
  | some w =>
      if w = "" then ({ s with openConns := closed }, [])
      else
        let states : String → Option WorkerState :=
          match s.workerStates w with
          | none => s.workerStates
          | some st => fun k =>
              if k = w then
                some { st with active := some false, status := some Status.offline,
                               timestamp := some now }
              else s.workerStates k
        ({ s with workerStates := states,
                  workerConnections := fun k => if k = w then none else s.workerConnections k,
                  openConns := closed }, [])

/-- getWorkerState of the second variant: a plain store lookup. -/
def getWorkerState (s : ServerState) (workerId : String) : Option WorkerState :=
  s.workerStates workerId

end V2

namespace V1

/-- Server state of the first variant of routes/socket.ts: the
workerConnections map, each connection handler closure variable workerId,
and which connections are OPEN (this variant keeps no state store). -/
structure ServerState where
  workerConnections : String → Option Nat
  connWorkerId : Nat → Option String
  openConns : Nat → Bool

/-- Message emitted by a worker socket inside the five-second response
window of a status query, as observed by the listeners of that query: a
statusResponse with some request id and payload, or anything else
(including unparseable data, whose parse error is caught). -/
inductive WireMsg where
  | statusResponse (requestId : String) (payload : WorkerState)
  | other
deriving DecidableEq, Repr

/-- First statusResponse in the trace whose request id matches: this is
what the handleResponse listener of getWorkerState resolves with.  That
listener is installed with addEventListener, ignores non-matching
messages and survives parse errors, so it fires on the first match
anywhere in the window. -/
def firstMatch (requestId : String) : List WireMsg → Option WorkerState
  | [] => none
  | WireMsg.statusResponse rid p :: rest =>
      if rid = requestId then some p else firstMatch requestId rest
  | WireMsg.other :: rest => firstMatch requestId rest

/-- Resolve calls made on the promise of getWorkerState (first variant,
routes/socket.ts lines 52-112), in call order.  With no OPEN connection
the promise resolves immediately with the synthetic offline record.
Otherwise handleResponse resolves with the first matching response in
the window, and the five-second setTimeout — which is never cleared —
always fires afterwards and calls resolve again with the synthetic
offline record.  trace is the sequence of messages the worker socket
emits inside the window. -/
def getWorkerStateResolveCalls (s : ServerState) (workerId requestId : String)
    (trace : List WireMsg) (now : Nat) : List WorkerState :=
  match s.workerConnections workerId with
  | none => [syntheticOffline (some workerId) now]
  | some c =>
      if s.openConns c then
        match firstMatch requestId trace with
        | some p => [p, syntheticOffline (some workerId) now]
        | none => [syntheticOffline (some workerId) now]
      else [syntheticOffline (some workerId) now]

/-- Value of a JavaScript promise given the list of resolve calls made on
it: the first call wins, later calls are no-ops. -/
def promiseValue (calls : List WorkerState) : Option WorkerState :=
  calls.head?

/-- getWorkerState of the first variant: the value its returned promise
settles to. -/
def getWorkerState (s : ServerState) (workerId requestId : String)
    (trace : List WireMsg) (now : Nat) : Option WorkerState :=
  promiseValue (getWorkerStateResolveCalls s workerId requestId trace now)

/-- Sends performed by the statusRequest case of the first variant
message handler (routes/socket.ts lines 136-214), excluding the final
ack.  requested is targetWorkerId or-else workerId (JavaScript or).  If
the target worker has an OPEN connection the request is forwarded to it.
The responseHandler is then registered with the EventEmitter form
targetWorkerWs.once("message", ...), which passes the raw data Buffer,
not a MessageEvent: responseMsg.data is undefined at runtime, so
responseMsg.data.toString() throws on EVERY message and the throw is
swallowed by the handler's own catch — the real response is never
forwarded to the requester, no matter what the worker sends (the trace
parameter is therefore ignored here; it is kept because the direct
getWorkerState path, which uses addEventListener and does receive an
event with a data field, genuinely consumes it).  The five-second
timeout — never cleared — then sends the synthetic offline
statusResponse to the requester, the only statusResponse it ever
receives.  With no OPEN target connection the synthetic offline
response is sent immediately. -/
def routeStatusRequestSends (s : ServerState) (sender : Nat)
    (workerId targetWorkerId : Option String) (requestId : String)
    (_trace : List WireMsg) (now : Nat) : List (Nat × Envelope) :=
  let offlineSend : Nat × Envelope :=
    (sender, Envelope.statusResponseMsg requestId
      (syntheticOffline (jsOrStr targetWorkerId workerId) now))
  match (jsOrStr targetWorkerId workerId).bind s.workerConnections with
  | some c =>
      if s.openConns c then
        [(c, Envelope.statusRequestMsg (jsOrStr targetWorkerId workerId) requestId),
         offlineSend]
      else [offlineSend]
  | none => [offlineSend]

/-- Inbound message of the first variant message handler after JSON
parsing; statusRequest carries the envelope requestId and the optional
payload targetWorkerId. -/
inductive InMsg where
  | malformed
  | connect (workerId : Option String)
  | statusRequest (workerId targetWorkerId : Option String) (requestId : String)
  | statusResponse
  | unknownKind
deriving DecidableEq, Repr

/-- Message handler of the first variant (routes/socket.ts lines
120-231).  connect assigns the closure variable workerId unconditionally
and registers the connection when the id is truthy; statusRequest routes
as modelled by routeStatusRequestSends; statusResponse is a logged
pass-through; a parsed message of unknown kind matches no case.  Every
parsed message is acknowledged; a thrown error is answered with the
error envelope.  Nothing in the handler closes a connection. -/
def handleMessage (s : ServerState) (c : Nat) (m : InMsg)
    (trace : List WireMsg) (now : Nat) : ServerState × List (Nat × Envelope) :=
  match m with
  | InMsg.malformed => (s, [(c, Envelope.error "Failed to process message")])
  | InMsg.connect wid =>
      let s1 : ServerState :=
        { s with connWorkerId := fun k => if k = c then wid else s.connWorkerId k }
      match wid with
      | some w =>
          if w = "" then (s1, [(c, Envelope.ack)])
          else
            ({ s1 with workerConnections := addWorkerConnection s1.workerConnections w c },
             [(c, Envelope.ack)])
      | none => (s1, [(c, Envelope.ack)])
  | InMsg.statusRequest wid target rid =>
      (s, routeStatusRequestSends s c wid target rid trace now ++ [(c, Envelope.ack)])
  | InMsg.statusResponse => (s, [(c, Envelope.ack)])
  | InMsg.unknownKind => (s, [(c, Envelope.ack)])

/-- Close handler of the first variant (routes/socket.ts lines 233-240):
if the closure variable workerId is truthy, delete the workerConnections
entry for it — unconditionally, even if the map meanwhile points at a
different, newer connection.  The closing socket is no longer OPEN. -/
def handleClose (s : ServerState) (c : Nat) : ServerState :=
  let closed : Nat → Bool := fun k => if k = c then false else s.openConns k
  match s.connWorkerId c with
  | none => { s with openConns := closed }
  | some w =>
      if w = "" then { s with openConns := closed }
      else
        { s with workerConnections := fun k => if k = w then none else s.workerConnections k,
                 openConns := closed }

end V1

/-! Concrete fixtures used to evaluate the model at specific inputs. -/

/-- Empty connection map. -/
def emptyConns : String → Option Nat := fun _ => none

/-- Connection map binding worker "w1" to connection 0. -/
def connsW1 : String → Option Nat := fun k => if k = "w1" then some 0 else none

/-- Every connection OPEN. -/
def allOpen : Nat → Bool := fun _ => true

/-- No connection OPEN. -/
def noneOpen : Nat → Bool := fun _ => false

/-- First-variant server state with no registrations and all sockets open. -/
def emptyV1 : V1.ServerState :=
  { workerConnections := emptyConns, connWorkerId := fun _ => none,
    openConns := allOpen }

/-- First-variant server state where worker "w1" is registered on
connection 0 and all sockets are open. -/
def v1WithWorker : V1.ServerState :=
  { workerConnections := connsW1,
    connWorkerId := fun c => if c = 0 then some "w1" else none,
    openConns := allOpen }

/-- Sample worker-reported state payload. -/
def pEx : WorkerState :=
  { id := some "w1", active := some true, status := some Status.working,
    position := none, rotation := none, batteryLevel := some 63,
    currentTask := some "haul", timestamp := some 42 }

/-- Second-variant server state with an empty store and no registrations. -/
def emptyV2 : V2.ServerState :=
  { workerStates := fun _ => none, workerConnections := emptyConns,
    connWorkerId := fun _ => none, openConns := allOpen }

/-- Sample stored record for worker "w1". -/
def stEx : WorkerState :=
  { id := some "w1", active := some true, status := some Status.working,
    position := some { x := 1, y := 2, z := 3 }, rotation := none,
    batteryLevel := some 80, currentTask := some "dig", timestamp := some 7 }

/-- Second-variant server state where worker "w1" (connection 0) has the
stored record stEx and connection 1 is an open, unidentified observer. -/
def v2WithWorker : V2.ServerState :=
  { workerStates := fun k => if k = "w1" then some stEx else none,
    workerConnections := connsW1,
    connWorkerId := fun c => if c = 0 then some "w1" else none,
    openConns := allOpen }

/-- First stateUpdate payload of the C1 scenario: battery level present. -/
def u1 : WorkerState :=
  { id := some "w1", active := some true, status := some Status.idle,
    position := none, rotation := none, batteryLevel := some 80,
    currentTask := none, timestamp := none }

/-- Second stateUpdate payload of the C1 scenario: battery level absent. -/
def u2 : WorkerState :=
  { id := some "w1", active := some true, status := some Status.working,
    position := none, rotation := none, batteryLevel := none,
    currentTask := none, timestamp := none }

/-! Theorems settling the claims. -/

/-- C4: sending a command (terminateWorker) to a worker identifier with
no registered open connection returns false, sends nothing and does not
raise (the function is total); with a registered OPEN connection it sends
the command envelope to that connection and returns true. -/
theorem C4_sendCommand (conns : String → Option Nat) (openConns : Nat → Bool)
    (w : String) :
    (conns w = none → terminateWorker conns openConns w = (false, [])) ∧
    (∀ c, conns w = some c → openConns c = false →
        terminateWorker conns openConns w = (false, [])) ∧
    (∀ c, conns w = some c → openConns c = true →
        terminateWorker conns openConns w =
          (true, [(c, Envelope.command w "terminate")])) := by
  refine ⟨fun h => ?_, fun c h hc => ?_, fun c h hc => ?_⟩
  · simp [terminateWorker, h]
  · simp [terminateWorker, h, hc]
  · simp [terminateWorker, h, hc]

/-- Witness for C4 at concrete inputs. -/
theorem C4_sendCommand_witness :
    terminateWorker emptyConns allOpen "w1" = (false, []) ∧
    terminateWorker connsW1 noneOpen "w1" = (false, []) ∧
    terminateWorker connsW1 allOpen "w1" =
      (true, [(0, Envelope.command "w1" "terminate")]) :=
  ⟨(C4_sendCommand emptyConns allOpen "w1").1 rfl,
   (C4_sendCommand connsW1 noneOpen "w1").2.1 0 rfl rfl,
   (C4_sendCommand connsW1 allOpen "w1").2.2 0 rfl rfl⟩

/-- C5: when two connections identify as the same workerId in sequence,
the later connect supersedes the earlier one in the identifier map, no
socket is closed by the operation (the open-connection map is untouched),
and a command routed to that id afterwards is sent only to the most
recently identified connection. -/
theorem C5_supersede (s : V1.ServerState) (a b : Nat) (w : String)
    (tr : List V1.WireMsg) (n1 n2 : Nat) (hw : w ≠ "") :
    let s2 := (V1.handleMessage ((V1.handleMessage s a (V1.InMsg.connect (some w)) tr n1).1)
        b (V1.InMsg.connect (some w)) tr n2).1
    s2.workerConnections w = some b ∧
    s2.openConns = s.openConns ∧
    (s.openConns b = true →
      terminateWorker s2.workerConnections s2.openConns w =
        (true, [(b, Envelope.command w "terminate")])) := by
  intro s2
  refine ⟨?_, ?_, ?_⟩
  · simp [s2, V1.handleMessage, addWorkerConnection, hw]
  · simp [s2, V1.handleMessage, hw]
  · intro hb
    simp [s2, V1.handleMessage, addWorkerConnection, terminateWorker, hw, hb]

/-- Witness for C5 at concrete inputs. -/
theorem C5_supersede_witness :
    ((V1.handleMessage ((V1.handleMessage emptyV1 0 (V1.InMsg.connect (some "w1")) [] 1).1)
        1 (V1.InMsg.connect (some "w1")) [] 2).1).workerConnections "w1" = some 1 ∧
    ((V1.handleMessage ((V1.handleMessage emptyV1 0 (V1.InMsg.connect (some "w1")) [] 1).1)
        1 (V1.InMsg.connect (some "w1")) [] 2).1).openConns = emptyV1.openConns ∧
    terminateWorker
        ((V1.handleMessage ((V1.handleMessage emptyV1 0 (V1.InMsg.connect (some "w1")) [] 1).1)
            1 (V1.InMsg.connect (some "w1")) [] 2).1).workerConnections
        ((V1.handleMessage ((V1.handleMessage emptyV1 0 (V1.InMsg.connect (some "w1")) [] 1).1)
            1 (V1.InMsg.connect (some "w1")) [] 2).1).openConns "w1" =
      (true, [(1, Envelope.command "w1" "terminate")]) :=
  ⟨(C5_supersede emptyV1 0 1 "w1" [] 1 2 (by decide)).1,
   (C5_supersede emptyV1 0 1 "w1" [] 1 2 (by decide)).2.1,
   (C5_supersede emptyV1 0 1 "w1" [] 1 2 (by decide)).2.2 rfl⟩

/-- C10: connection a identifies as worker w, connection b then identifies
as w (superseding a in the map), and a closes; the close handler of a
deletes the map entry for w unconditionally, so afterwards no connection
is mapped to w even though b is still open: terminateWorker returns false
sending nothing, and a routed status request synthesizes the offline
response. -/
theorem C10_close_unmaps_superseded (s : V1.ServerState) (a b sender : Nat)
    (w rid : String) (tr : List V1.WireMsg) (n1 n2 n3 : Nat)
    (hab : a ≠ b) (hw : w ≠ "") (hb : s.openConns b = true) :
    let s3 := V1.handleClose
      ((V1.handleMessage ((V1.handleMessage s a (V1.InMsg.connect (some w)) tr n1).1)
          b (V1.InMsg.connect (some w)) tr n2).1) a
    s3.workerConnections w = none ∧
    s3.openConns b = true ∧
    terminateWorker s3.workerConnections s3.openConns w = (false, []) ∧
    V1.routeStatusRequestSends s3 sender (some w) none rid tr n3 =
      [(sender, Envelope.statusResponseMsg rid (syntheticOffline (some w) n3))] := by
  intro s3
  have hba : ¬ (b = a) := fun h => hab h.symm
  refine ⟨?_, ?_, ?_, ?_⟩
  · simp [s3, V1.handleClose, V1.handleMessage, addWorkerConnection, hw, hab]
  · simp [s3, V1.handleClose, V1.handleMessage, addWorkerConnection, hw, hab, hba, hb]
  · simp [s3, V1.handleClose, V1.handleMessage, addWorkerConnection, terminateWorker, hw, hab]
  · simp [s3, V1.handleClose, V1.handleMessage, addWorkerConnection,
      V1.routeStatusRequestSends, jsOrStr, hw, hab]

/-- Witness for C10 at concrete inputs. -/
theorem C10_close_unmaps_superseded_witness :
    let s3 := V1.handleClose
      ((V1.handleMessage ((V1.handleMessage emptyV1 0 (V1.InMsg.connect (some "w1")) [] 1).1)
          1 (V1.InMsg.connect (some "w1")) [] 2).1) 0
    s3.workerConnections "w1" = none ∧
    s3.openConns 1 = true ∧
    terminateWorker s3.workerConnections s3.openConns "w1" = (false, []) ∧
    V1.routeStatusRequestSends s3 2 (some "w1") none "r1" [] 3 =
      [(2, Envelope.statusResponseMsg "r1" (syntheticOffline (some "w1") 3))] :=
  C10_close_unmaps_superseded emptyV1 0 1 2 "w1" "r1" [] 1 2 3
    (by decide) (by decide) rfl

/-- C7: marking a worker offline in the close handler sets active to
false, status to offline and stamps the current time on the existing
stored record, leaving every other field (id, position, rotation,
batteryLevel, currentTask) unchanged. -/
theorem C7_markOffline_frame (s : V2.ServerState) (c : Nat) (w : String)
    (st : WorkerState) (now : Nat)
    (hc : s.connWorkerId c = some w) (hw : w ≠ "")
    (hst : s.workerStates w = some st) :
    (V2.handleClose s c now).1.workerStates w =
      some { st with active := some false, status := some Status.offline,
                     timestamp := some now } ∧
    ∀ r, (V2.handleClose s c now).1.workerStates w = some r →
      r.id = st.id ∧ r.position = st.position ∧ r.rotation = st.rotation ∧
      r.batteryLevel = st.batteryLevel ∧ r.currentTask = st.currentTask ∧
      r.active = some false ∧ r.status = some Status.offline ∧
      r.timestamp = some now := by
  have h1 : (V2.handleClose s c now).1.workerStates w =
      some { st with active := some false, status := some Status.offline,
                     timestamp := some now } := by
    simp [V2.handleClose, hc, hw, hst]
  refine ⟨h1, ?_⟩
  intro r hr
  rw [h1] at hr
  cases Option.some.inj hr
  simp

/-- Witness for C7 at concrete inputs. -/
theorem C7_markOffline_frame_witness :
    (V2.handleClose v2WithWorker 0 100).1.workerStates "w1" =
      some { stEx with active := some false, status := some Status.offline,
                       timestamp := some 100 } ∧
    ({ stEx with active := some false, status := some Status.offline,
                 timestamp := some (100 : Nat) } : WorkerState).batteryLevel
      = stEx.batteryLevel :=
  ⟨(C7_markOffline_frame v2WithWorker 0 "w1" stEx 100 rfl (by decide) rfl).1,
   ((C7_markOffline_frame v2WithWorker 0 "w1" stEx 100 rfl (by decide) rfl).2
      { stEx with active := some false, status := some Status.offline,
                  timestamp := some 100 }
      (C7_markOffline_frame v2WithWorker 0 "w1" stEx 100 rfl (by decide) rfl).1).2.2.2.1⟩

/-- C6 counterexample: in the concrete scenario with worker "w1" on
connection 0 and an open observer connection 1, closing the worker
connection does flip the stored record to offline, but the close handler
performs no sends at all, so the transition is broadcast to the observer
zero times, not exactly once, and no sweeper exists in the module. -/
theorem C6_counterexample :
    (V2.handleClose v2WithWorker 0 100).2 = [] ∧
    ¬ (((V2.handleClose v2WithWorker 0 100).2.filter
          (fun e => e.1 == 1)).length = 1) ∧
    ((V2.handleClose v2WithWorker 0 100).1.workerStates "w1").map
        WorkerState.status = some (some Status.offline) := by
  refine ⟨?_, ?_, ?_⟩ <;> decide

/-- C6 amended: when a connection whose closure variable holds worker w
closes, the close handler immediately (there is no sweeper) rewrites the
stored record for w to status offline and active false with a fresh
timestamp and removes the connection mapping, and it sends no message to
any connection (no observer broadcast occurs). -/
theorem C6_close_transition_no_broadcast (s : V2.ServerState) (c : Nat)
    (w : String) (st : WorkerState) (now : Nat)
    (hc : s.connWorkerId c = some w) (hw : w ≠ "")
    (hst : s.workerStates w = some st) :
    ((V2.handleClose s c now).1.workerStates w).map WorkerState.status
      = some (some Status.offline) ∧
    ((V2.handleClose s c now).1.workerStates w).map WorkerState.active
      = some (some false) ∧
    ((V2.handleClose s c now).1.workerStates w).map WorkerState.timestamp
      = some (some now) ∧
    (V2.handleClose s c now).1.workerConnections w = none ∧
    (V2.handleClose s c now).2 = [] := by
  refine ⟨?_, ?_, ?_, ?_, ?_⟩ <;> simp [V2.handleClose, hc, hw, hst]

/-- Witness for the amended C6 at concrete inputs. -/
theorem C6_close_transition_no_broadcast_witness :
    ((V2.handleClose v2WithWorker 0 100).1.workerStates "w1").map
        WorkerState.status = some (some Status.offline) ∧
    ((V2.handleClose v2WithWorker 0 100).1.workerStates "w1").map
        WorkerState.active = some (some false) ∧
    ((V2.handleClose v2WithWorker 0 100).1.workerStates "w1").map
        WorkerState.timestamp = some (some 100) ∧
    (V2.handleClose v2WithWorker 0 100).1.workerConnections "w1" = none ∧
    (V2.handleClose v2WithWorker 0 100).2 = [] :=
  C6_close_transition_no_broadcast v2WithWorker 0 "w1" stEx 100
    rfl (by decide) rfl

/-- C8: once a worker identifier has a record in the workerStates store,
no operation of the second variant deletes it: every message-handler case
(connect, stateUpdate, unknown kind, malformed input) and the close
handler only add or overwrite records, so a previously stored identifier
still yields a record afterwards (terminateWorker does not touch the
store at all — it only reads the connection map). -/
theorem C8_store_monotone :
    (∀ (s : V2.ServerState) (c : Nat) (m : V2.InMsg) (now : Nat) (w : String),
        (s.workerStates w).isSome = true →
        (((V2.handleMessage s c m now).1).workerStates w).isSome = true) ∧
    (∀ (s : V2.ServerState) (c now : Nat) (w : String),
        (s.workerStates w).isSome = true →
        (((V2.handleClose s c now).1).workerStates w).isSome = true) := by
  constructor
  · intro s c m now w h
    cases m with
    | malformed => simpa [V2.handleMessage] using h
    | unknownKind => simpa [V2.handleMessage] using h
    | connect wid =>
        cases wid with
        | none => simpa [V2.handleMessage] using h
        | some v =>
            by_cases hv : v = "" <;> simpa [V2.handleMessage, hv] using h
    | stateUpdate wid p =>
        cases wid with
        | none => simpa [V2.handleMessage] using h
        | some v =>
            cases p with
            | none => simpa [V2.handleMessage] using h
            | some payload =>
                by_cases hv : v = ""
                · simpa [V2.handleMessage, hv] using h
                · by_cases hwv : w = v
                  · simp [V2.handleMessage, hv, hwv]
                  · simpa [V2.handleMessage, hv, hwv] using h
  · intro s c now w h
    unfold V2.handleClose
    cases hcw : s.connWorkerId c with
    | none => simpa using h
    | some v =>
        by_cases hv : v = ""
        · simpa [hv] using h
        · cases hsv : s.workerStates v with
          | none => simpa [hv, hsv] using h
          | some st =>
              by_cases hwv : w = v
              · simp [hv, hsv, hwv]
              · simpa [hv, hsv, hwv] using h

/-- Witness for C8 at concrete inputs. -/
theorem C8_store_monotone_witness :
    ((V2.handleMessage v2WithWorker 0 V2.InMsg.unknownKind 5).1.workerStates
        "w1").isSome = true ∧
    ((V2.handleClose v2WithWorker 0 5).1.workerStates "w1").isSome = true :=
  ⟨C8_store_monotone.1 v2WithWorker 0 V2.InMsg.unknownKind 5 "w1" (by decide),
   C8_store_monotone.2 v2WithWorker 0 5 "w1" (by decide)⟩

/-- C1 counterexample: worker "w1" first reports a payload with
batteryLevel 80 (u1), then a payload without batteryLevel (u2).  After
the second update the stored record has no batteryLevel at all — the
previously stored value 80 was cleared, not retained, because
stateUpdate replaces the whole record with the spread of the last
payload.  The claimed shallow-merge semantics would require some 80. -/
theorem C1_counterexample :
    (V2.getWorkerState
        ((V2.handleMessage
            ((V2.handleMessage emptyV2 0
                (V2.InMsg.stateUpdate (some "w1") (some u1)) 1).1)
            0 (V2.InMsg.stateUpdate (some "w1") (some u2)) 2).1) "w1").map
        WorkerState.batteryLevel = some none ∧
    some (none : Option Int) ≠ some (some (80 : Int)) := by
  constructor <;> decide

/-- C1 amended: a stateUpdate with a truthy worker id and a payload
replaces the stored record wholesale: afterwards the stored state for
that id is exactly the last update payload with a server-stamped
timestamp (fields present in the last update have its values; optional
fields absent from it are absent, regardless of what was stored before),
and records of other identifiers are untouched. -/
theorem C1_lastUpdateReplaces (s : V2.ServerState) (c : Nat) (w : String)
    (p : WorkerState) (now : Nat) (hw : w ≠ "") :
    V2.getWorkerState
        ((V2.handleMessage s c (V2.InMsg.stateUpdate (some w) (some p)) now).1) w
      = some { p with timestamp := some now } ∧
    ∀ v, v ≠ w →
      ((V2.handleMessage s c (V2.InMsg.stateUpdate (some w) (some p)) now).1).workerStates v
        = s.workerStates v := by
  constructor
  · simp [V2.handleMessage, V2.getWorkerState, hw]
  · intro v hv
    simp [V2.handleMessage, hw, hv]

/-- Witness for the amended C1 at concrete inputs. -/
theorem C1_lastUpdateReplaces_witness :
    V2.getWorkerState
        ((V2.handleMessage emptyV2 0
            (V2.InMsg.stateUpdate (some "w1") (some u1)) 3).1) "w1"
      = some { u1 with timestamp := some 3 } ∧
    ((V2.handleMessage emptyV2 0
        (V2.InMsg.stateUpdate (some "w1") (some u1)) 3).1).workerStates "w2"
      = emptyV2.workerStates "w2" :=
  ⟨(C1_lastUpdateReplaces emptyV2 0 "w1" u1 3 (by decide)).1,
   (C1_lastUpdateReplaces emptyV2 0 "w1" u1 3 (by decide)).2 "w2" (by decide)⟩

/-- C9 counterexample: a well-formed message whose kind matches no switch
case (unknown kind) is answered with the routine ack envelope only — the
reply list is exactly [(sender, ack)] and contains no error envelope —
whereas the claim requires an error envelope for unknown kinds. -/
theorem C9_counterexample :
    (V1.handleMessage emptyV1 0 V1.InMsg.unknownKind [] 0).2 =
      [(0, Envelope.ack)] ∧
    ((V1.handleMessage emptyV1 0 V1.InMsg.unknownKind [] 0).2.filter
        (fun e => match e.2 with
          | Envelope.error _ => true
          | _ => false)).length = 0 ∧
    Envelope.ack ≠ Envelope.error "Failed to process message" := by
  refine ⟨?_, ?_, ?_⟩ <;> decide

/-- C9 amended: malformed input (JSON.parse or field access throws) is
caught and answered with the error envelope, while a parsed message of
unknown kind is answered only with the ack envelope; in both cases the
server state — including which connections are open — is unchanged, the
handler is total (it never crashes) and it never closes the sender
connection. -/
theorem C9_error_handling (s : V1.ServerState) (c : Nat)
    (tr : List V1.WireMsg) (now : Nat) :
    V1.handleMessage s c V1.InMsg.malformed tr now =
      (s, [(c, Envelope.error "Failed to process message")]) ∧
    V1.handleMessage s c V1.InMsg.unknownKind tr now =
      (s, [(c, Envelope.ack)]) := by
  constructor <;> rfl

/-- C2: for every pending status query, exactly one of
response-resolution and timeout-expiry completes it toward the
requester.  Direct getWorkerState path: the promise value is its first
resolve call; at most two resolve calls are ever made (a matching
response, then the uncancelled timeout), so the later resolve attempt is
a no-op and no second result reaches the caller; when a matching
response arrives within the window it wins, otherwise the timeout
delivers the synthetic offline record.  Router path: for every trace the
worker may emit, exactly one statusResponse — the timeout's synthetic
offline one — is ever delivered to the requester for the request id, the
once-registered handler being unable to forward anything (it throws on
the raw Buffer, see routeStatusRequestSends). -/
theorem C2_exactly_once (s : V1.ServerState) (sender c : Nat)
    (w rid : String) (trace : List V1.WireMsg) (now : Nat)
    (hc : s.workerConnections w = some c) (ho : s.openConns c = true) :
    V1.getWorkerState s w rid trace now =
      (V1.getWorkerStateResolveCalls s w rid trace now).head? ∧
    (V1.getWorkerStateResolveCalls s w rid trace now).length ≤ 2 ∧
    V1.getWorkerStateResolveCalls s w rid trace now ≠ [] ∧
    (∀ p, V1.firstMatch rid trace = some p →
        V1.getWorkerState s w rid trace now = some p) ∧
    (V1.firstMatch rid trace = none →
        V1.getWorkerState s w rid trace now =
          some (syntheticOffline (some w) now)) ∧
    ((V1.routeStatusRequestSends s sender (some w) none rid trace now).filter
        (fun e => match e.2 with
          | Envelope.statusResponseMsg _ _ => e.1 == sender
          | _ => false)).length = 1 := by
  refine ⟨rfl, ?_, ?_, ?_, ?_, ?_⟩
  · cases hm : V1.firstMatch rid trace <;>
      simp [V1.getWorkerStateResolveCalls, hc, ho, hm]
  · cases hm : V1.firstMatch rid trace <;>
      simp [V1.getWorkerStateResolveCalls, hc, ho, hm]
  · intro p hm
    simp [V1.getWorkerState, V1.promiseValue, V1.getWorkerStateResolveCalls,
      hc, ho, hm]
  · intro hm
    simp [V1.getWorkerState, V1.promiseValue, V1.getWorkerStateResolveCalls,
      hc, ho, hm]
  · simp [V1.routeStatusRequestSends, jsOrStr, hc, ho]

/-- Witness for C2 at concrete inputs. -/
theorem C2_exactly_once_witness :
    V1.getWorkerState v1WithWorker "w1" "r1"
        [V1.WireMsg.statusResponse "r1" pEx] 50 =
      (V1.getWorkerStateResolveCalls v1WithWorker "w1" "r1"
        [V1.WireMsg.statusResponse "r1" pEx] 50).head? ∧
    (V1.getWorkerStateResolveCalls v1WithWorker "w1" "r1"
        [V1.WireMsg.statusResponse "r1" pEx] 50).length ≤ 2 ∧
    V1.getWorkerState v1WithWorker "w1" "r1"
        [V1.WireMsg.statusResponse "r1" pEx] 50 = some pEx ∧
    ((V1.routeStatusRequestSends v1WithWorker 5 (some "w1") none "r1"
        [V1.WireMsg.statusResponse "r1" pEx] 50).filter
        (fun e => match e.2 with
          | Envelope.statusResponseMsg _ _ => e.1 == 5
          | _ => false)).length = 1 :=
  ⟨(C2_exactly_once v1WithWorker 5 0 "w1" "r1"
      [V1.WireMsg.statusResponse "r1" pEx] 50 rfl rfl).1,
   (C2_exactly_once v1WithWorker 5 0 "w1" "r1"
      [V1.WireMsg.statusResponse "r1" pEx] 50 rfl rfl).2.1,
   (C2_exactly_once v1WithWorker 5 0 "w1" "r1"
      [V1.WireMsg.statusResponse "r1" pEx] 50 rfl rfl).2.2.2.1 pEx (by decide),
   (C2_exactly_once v1WithWorker 5 0 "w1" "r1"
      [V1.WireMsg.statusResponse "r1" pEx] 50 rfl rfl).2.2.2.2.2⟩

/-- C3 counterexample: worker "w1" has an OPEN connection and its very
first message within the window is the matching statusResponse — a
timely, correctly correlated reply — yet the requester receives only the
synthetic offline response and never the actual payload: the
once-registered router handler throws on the raw data Buffer before it
can forward anything. -/
theorem C3_counterexample :
    V1.routeStatusRequestSends v1WithWorker 5 (some "w1") none "r1"
        [V1.WireMsg.statusResponse "r1" pEx] 50 =
      [(0, Envelope.statusRequestMsg (some "w1") "r1"),
       (5, Envelope.statusResponseMsg "r1" (syntheticOffline (some "w1") 50))] ∧
    Envelope.statusResponseMsg "r1" pEx ≠
      Envelope.statusResponseMsg "r1" (syntheticOffline (some "w1") 50) := by
  constructor <;> decide

/-- C3 amended: a status query for an identifier with no connection, or
whose connection is not OPEN, resolves immediately with the synthetic
record (active false, status offline); in the direct getWorkerState path
a matching reply anywhere within the five-second window resolves the
query with the actual reported payload; but in the router-forwarding
path the actual payload is NEVER delivered: whatever the worker replies,
the requester receives exactly the forwarded request side-effect and the
synthetic offline response, because the once-registered handler cannot
read the raw Buffer it is given. -/
theorem C3_query_resolution :
    (∀ (s : V1.ServerState) (w rid : String) (trace : List V1.WireMsg) (now : Nat),
        s.workerConnections w = none →
        V1.getWorkerState s w rid trace now =
          some (syntheticOffline (some w) now)) ∧
    (∀ (s : V1.ServerState) (w rid : String) (trace : List V1.WireMsg) (now c : Nat),
        s.workerConnections w = some c → s.openConns c = false →
        V1.getWorkerState s w rid trace now =
          some (syntheticOffline (some w) now)) ∧
    (∀ (s : V1.ServerState) (w rid : String) (trace : List V1.WireMsg)
        (now c : Nat) (p : WorkerState),
        s.workerConnections w = some c → s.openConns c = true →
        V1.firstMatch rid trace = some p →
        V1.getWorkerState s w rid trace now = some p) ∧
    (∀ (s : V1.ServerState) (sender : Nat) (w rid : String)
        (trace : List V1.WireMsg) (now c : Nat),
        s.workerConnections w = some c → s.openConns c = true →
        V1.routeStatusRequestSends s sender (some w) none rid trace now =
          [(c, Envelope.statusRequestMsg (some w) rid),
           (sender, Envelope.statusResponseMsg rid
              (syntheticOffline (some w) now))]) := by
  refine ⟨?_, ?_, ?_, ?_⟩
  · intro s w rid trace now h
    simp [V1.getWorkerState, V1.promiseValue, V1.getWorkerStateResolveCalls, h]
  · intro s w rid trace now c h ho
    simp [V1.getWorkerState, V1.promiseValue, V1.getWorkerStateResolveCalls, h, ho]
  · intro s w rid trace now c p h ho hm
    simp [V1.getWorkerState, V1.promiseValue, V1.getWorkerStateResolveCalls, h, ho, hm]
  · intro s sender w rid trace now c h ho
    simp [V1.routeStatusRequestSends, jsOrStr, h, ho]

/-- Witness for the amended C3 at concrete inputs. -/
theorem C3_query_resolution_witness :
    V1.getWorkerState emptyV1 "w1" "r1" [] 9 =
      some (syntheticOffline (some "w1") 9) ∧
    V1.getWorkerState v1WithWorker "w1" "r1"
        [V1.WireMsg.other, V1.WireMsg.statusResponse "r1" pEx] 9 = some pEx ∧
    V1.routeStatusRequestSends v1WithWorker 5 (some "w1") none "r1"
        [V1.WireMsg.statusResponse "r1" pEx] 9 =
      [(0, Envelope.statusRequestMsg (some "w1") "r1"),
       (5, Envelope.statusResponseMsg "r1" (syntheticOffline (some "w1") 9))] :=
  ⟨C3_query_resolution.1 emptyV1 "w1" "r1" [] 9 rfl,
   C3_query_resolution.2.2.1 v1WithWorker "w1" "r1"
     [V1.WireMsg.other, V1.WireMsg.statusResponse "r1" pEx] 9 0 pEx
     rfl rfl (by decide),
   C3_query_resolution.2.2.2 v1WithWorker 5 "w1" "r1"
     [V1.WireMsg.statusResponse "r1" pEx] 9 0 rfl rfl⟩
